import Mathlib

/-!
Verification of the Grants.gov opportunity ETL pipeline.

This file gives a shallow embedding, in Lean 4, of the data-shaping kernels of
the repository: the pagination and query-parameter coercion of the
`GrantsViewer` HTTP handler, the currency coercion `safe_float`, the
merge-upsert entity construction of `enhanced_grant_collector`, the
award-range repair of `resilient_grant_scraper.fix_grant`, the retry loop of
`resilient_grant_scraper.get_api_grant_details`, the record rejection of
`GrantDataTransformer.transform_opportunities`, the date normalizers
`format_date` and `parse_grants_date`, and the retention filter of
`cleanup_old_grants`.  Machine-level effects (HTTP, storage I/O, logging,
clock) are abstracted into explicit inputs; the field-shaping logic is
translated line by line from the Python source.
-/

namespace GrantsETL

/-! ### Python primitive models -/

/-- ASCII decimal digit test, matching Python `str.isdigit` on ASCII input. -/
def isAsciiDigit (c : Char) : Bool := decide ('0' ≤ c) && decide (c ≤ '9')

/-- Numeric value of an ASCII digit character. -/
def digitVal (c : Char) : ℕ := c.toNat - '0'.toNat

/-- Whitespace characters stripped by Python `int()` before parsing
(ASCII subset). -/
def isPySpace (c : Char) : Bool :=
  c = ' ' || c = '\t' || c = '\n' || c = '\r' || c = '\x0b' || c = '\x0c'

/-- Strip leading and trailing whitespace from a character list. -/
def stripWS (cs : List Char) : List Char :=
  ((cs.dropWhile isPySpace).reverse.dropWhile isPySpace).reverse

/-- Validate Python's digit-group syntax for `int()` literals: a run of
digits in which a single underscore may appear only between two digits.
Returns the digits with underscores removed, or `none` on a violation. -/
def deUnderscore : List Char → Option (List Char)
  | [] => some []
  | [c] => if isAsciiDigit c then some [c] else none
  | c :: '_' :: d :: rest =>
    if isAsciiDigit c && isAsciiDigit d then
      (deUnderscore (d :: rest)).map (fun ds => c :: ds)
    else none
  | c :: cs =>
    if isAsciiDigit c then (deUnderscore cs).map (fun ds => c :: ds)
    else none

/-- Base-10 value of a digit list. -/
def natOfDigits (ds : List Char) : ℕ :=
  ds.foldl (fun a c => 10 * a + digitVal c) 0

/-- Model of Python `int(s)` on a string: strip surrounding whitespace, accept
an optional sign followed by digits (with legal underscore grouping);
any other input raises `ValueError`, modelled as `none`. -/
def pyInt (s : String) : Option Int :=
  let cs := stripWS s.data
  let signed : Int × List Char :=
    match cs with
    | '+' :: rest => (1, rest)
    | '-' :: rest => (-1, rest)
    | _ => (1, cs)
  match deUnderscore signed.2 with
  | some ds => if ds.isEmpty then none else some (signed.1 * (natOfDigits ds : Int))
  | none => none

/-! ### GrantsViewer: pagination parameter coercion and page slicing

Source: `grants_gov_api_azure/clean_project/src/functions/GrantsGovFunctions/GrantsViewer/__init__.py`.
-/

/-- Coercion of the `limit` query parameter: `int(req.params.get('limit','100'))`
guarded by `try/except ValueError` with default 100, then clamped —
non-positive becomes 100, above 10000 becomes 10000. -/
def parseLimit (p : Option String) : Int :=
  match pyInt (p.getD "100") with
  | none => 100
  | some n => if n ≤ 0 then 100 else if n > 10000 then 10000 else n

/-- Coercion of the `page` query parameter: `max(1, int(req.params.get('page','1')))`
guarded by `try/except ValueError` with default 1. -/
def parsePage (p : Option String) : Int :=
  match pyInt (p.getD "1") with
  | none => 1
  | some n => max 1 n

/-- Python list slice `xs[a:b]` for `0 ≤ a ≤ b`. -/
def pySlice (xs : List α) (a b : ℕ) : List α := (xs.drop a).take (b - a)

/-- The handler's page extraction: `offset = (page - 1) * limit` and
`filtered_grants[offset:offset+limit]`. -/
def paginate (xs : List α) (page limit : ℕ) : List α :=
  pySlice xs ((page - 1) * limit) ((page - 1) * limit + limit)

/-- The handler's page count:
`(total_count + limit - 1) // limit if total_count > 0 else 1`. -/
def totalPages (total limit : ℕ) : ℕ :=
  if total > 0 then (total + limit - 1) / limit else 1

/-- Modelled from the spec wording only (for comparison with `totalPages`):
"pages is the ceiling of total/limit". -/
def pagesCeilSpec (total limit : ℕ) : ℕ := ⌈(total : ℚ) / (limit : ℚ)⌉₊

/-! ### Theorems for the Reader/Viewer claims -/

/-- C5 (counterexample): the handler reports `pages = 1` when zero records
match, while the ceiling of total/limit is `0` there, so "pages is the
ceiling of total/limit" fails at `total = 0`. -/
theorem viewer_pages_zero_total_cex :
    totalPages 0 10 = 1 ∧ pagesCeilSpec 0 10 = 0 := by
  refine ⟨rfl, ?_⟩
  simp [pagesCeilSpec]

/-- C5 (amended): with 25 matching records, `page=2, limit=10` returns
records 11 through 20 and the page count is 3; in general the returned page
is the slice from `(page-1)*limit` up to `page*limit`, and whenever at least
one record matches the reported page count equals the ceiling of
total/limit (with zero matches the handler reports 1 instead). -/
theorem viewer_pagination_slice {α : Type} (xs : List α) (page limit i total : ℕ)
    (hp : 1 ≤ page) (hl : 1 ≤ limit) (ht : 1 ≤ total) :
    paginate (List.range 25) 2 10 = [10, 11, 12, 13, 14, 15, 16, 17, 18, 19] ∧
    totalPages 25 10 = 3 ∧
    paginate xs page limit = pySlice xs ((page - 1) * limit) (page * limit) ∧
    (paginate xs page limit).get? i =
      (if i < limit then xs.get? ((page - 1) * limit + i) else none) ∧
    totalPages total limit = pagesCeilSpec total limit := by
  have harith : (page - 1) * limit + limit = page * limit := by
    cases page with
    | zero => exact absurd hp (by decide)
    | succ p => simp [Nat.succ_sub_one, Nat.succ_mul]
  refine ⟨by decide, by decide, ?_, ?_, ?_⟩
  · unfold paginate
    rw [harith]
  · unfold paginate pySlice
    rw [Nat.add_sub_cancel_left]
    by_cases h : i < limit
    · rw [List.get?_eq_getElem?, List.getElem?_take_of_lt h, List.getElem?_drop,
        if_pos h, List.get?_eq_getElem?]
    · rw [List.get?_eq_getElem?, if_neg h, List.getElem?_eq_none]
      calc (List.take limit (List.drop ((page - 1) * limit) xs)).length
          ≤ limit := by simp
        _ ≤ i := Nat.le_of_not_lt h
  · have hl0 : 0 < limit := hl
    have htpos : 0 < total := ht
    unfold totalPages pagesCeilSpec
    rw [if_pos htpos]
    have hq := Nat.div_add_mod (total + limit - 1) limit
    have hr : (total + limit - 1) % limit < limit := Nat.mod_lt _ hl0
    set n := (total + limit - 1) / limit with hn
    have hn1 : 1 ≤ n := by rw [hn, Nat.one_le_div_iff hl0]; omega
    have h1 : total ≤ limit * n := by omega
    have h2 : limit * n < total + limit := by omega
    have hmul : limit * (n - 1) + limit = limit * n := by
      obtain ⟨m, hm⟩ : ∃ m, n = m + 1 := ⟨n - 1, by omega⟩
      rw [hm]
      simp [Nat.mul_succ]
    have h3 : limit * (n - 1) < total := by omega
    rw [eq_comm, Nat.ceil_eq_iff (by omega)]
    have hlq : (0 : ℚ) < (limit : ℚ) := by exact_mod_cast hl0
    refine ⟨?_, ?_⟩
    · rw [lt_div_iff₀ hlq]
      rw [Nat.mul_comm] at h3
      exact_mod_cast h3
    · rw [div_le_iff₀ hlq]
      rw [Nat.mul_comm] at h1
      exact_mod_cast h1

/-- C5 (witness): the amended pagination theorem evaluated on a concrete
25-record set with `page=2, limit=10`. -/
theorem viewer_pagination_slice_witness :
    paginate (List.range 25) 2 10 = [10, 11, 12, 13, 14, 15, 16, 17, 18, 19] ∧
    totalPages 25 10 = pagesCeilSpec 25 10 := by
  have h := viewer_pagination_slice (List.range 25) 2 10 0 25 (by decide) (by decide)
    (by decide)
  exact ⟨h.1, h.2.2.2.2⟩

/-- C6: pagination parameters are coerced, never rejected — the coerced limit
always lands in `[1, 10000]` and the coerced page is at least 1; a
non-integer limit or a non-positive limit becomes the default 100, a limit
above 10000 is capped at 10000, and a non-integer page becomes 1 while an
integer page is clamped below by 1. -/
theorem viewer_param_coercion (ls ps : Option String) :
    (1 ≤ parseLimit ls ∧ parseLimit ls ≤ 10000 ∧ 1 ≤ parsePage ps) ∧
    (∀ s, pyInt s = none → parseLimit (some s) = 100) ∧
    (∀ s n, pyInt s = some n → n ≤ 0 → parseLimit (some s) = 100) ∧
    (∀ s n, pyInt s = some n → 10000 < n → parseLimit (some s) = 10000) ∧
    (∀ s n, pyInt s = some n → 0 < n → n ≤ 10000 → parseLimit (some s) = n) ∧
    (∀ s, pyInt s = none → parsePage (some s) = 1) ∧
    (∀ s n, pyInt s = some n → parsePage (some s) = max 1 n) := by
  refine ⟨⟨?_, ?_, ?_⟩, ?_, ?_, ?_, ?_, ?_, ?_⟩
  · unfold parseLimit
    cases pyInt (ls.getD "100") with
    | none => norm_num
    | some n => dsimp only; split_ifs <;> omega
  · unfold parseLimit
    cases pyInt (ls.getD "100") with
    | none => norm_num
    | some n => dsimp only; split_ifs <;> omega
  · unfold parsePage
    cases pyInt (ps.getD "1") with
    | none => norm_num
    | some n => exact le_max_left 1 n
  · intro s h; unfold parseLimit; rw [Option.getD_some, h]
  · intro s n h hn; unfold parseLimit; rw [Option.getD_some, h]
    dsimp only; split_ifs <;> omega
  · intro s n h hn; unfold parseLimit; rw [Option.getD_some, h]
    dsimp only; split_ifs <;> omega
  · intro s n h h0 h10; unfold parseLimit; rw [Option.getD_some, h]
    dsimp only; split_ifs <;> omega
  · intro s h; unfold parsePage; rw [Option.getD_some, h]
  · intro s n h; unfold parsePage; rw [Option.getD_some, h]

/-- C6 (witness): the coercion theorem evaluated on concrete malformed and
out-of-range parameters. -/
theorem viewer_param_coercion_witness :
    parseLimit (some "abc") = 100 ∧ parseLimit (some "20000") = 10000 ∧
    parsePage (some "x1") = 1 := by
  have h := viewer_param_coercion (some "abc") (some "x1")
  exact ⟨h.2.1 "abc" (by decide),
    h.2.2.2.1 "20000" 20000 (by decide) (by decide),
    h.2.2.2.2.2.1 "x1" (by decide)⟩

/-- C10: the reported page count is at least 1 for every matching total, and
with zero matches the handler reports `pages = 1` with an empty page of
results. -/
theorem viewer_pages_at_least_one (total limit page : ℕ) (hl : 1 ≤ limit) :
    1 ≤ totalPages total limit ∧
    totalPages 0 limit = 1 ∧
    paginate ([] : List ℕ) page limit = [] := by
  refine ⟨?_, by simp [totalPages], by simp [paginate, pySlice]⟩
  unfold totalPages
  split_ifs with h
  · rw [Nat.one_le_div_iff hl]; omega
  · exact le_refl 1

/-- C10 (witness): the page-count lower bound evaluated at concrete totals. -/
theorem viewer_pages_at_least_one_witness :
    1 ≤ totalPages 7 3 ∧ totalPages 0 3 = 1 ∧ paginate ([] : List ℕ) 2 3 = [] :=
  viewer_pages_at_least_one 7 3 2 (by decide)

/-! ### safe_float: currency coercion

Source: `src/scripts/connection_resilient_collector.py`, `safe_float`.
-/

/-- A value passed to `safe_float`: Python `None`, a string, or a number
(floats are modelled as rationals). -/
inductive PyVal where
  | pyNone : PyVal
  | pyStr : String → PyVal
  | pyNum : ℚ → PyVal

/-- The string cleaning inside `safe_float`: drop `$` and `,`, then delete
every character outside `[0-9.\-]` (the `re.sub` step). -/
def cleanCurrency (s : String) : String :=
  let s1 := (s.data.filter (fun c => c ≠ '$')).filter (fun c => c ≠ ',')
  ⟨s1.filter (fun c => isAsciiDigit c || c = '.' || c = '-')⟩

/-- Syntactic acceptance of Python `float(s)` restricted to the
post-cleaning alphabet (digits, dot, minus): an optional leading minus,
then digits with at most one dot and at least one digit; every other shape
raises, modelled as `none`.  Returns the sign and the digit runs before and
after the dot. -/
def floatSyntax (s : String) : Option (Bool × List Char × List Char) :=
  let cs := s.data
  let neg : Bool := cs.head? = some '-'
  let body := if neg then cs.tail else cs
  let intPart := body.takeWhile (fun c => c ≠ '.')
  let fracPart := (body.dropWhile (fun c => c ≠ '.')).tail
  if intPart.all isAsciiDigit && fracPart.all isAsciiDigit
      && !(intPart.isEmpty && fracPart.isEmpty) then
    some (neg, intPart, fracPart)
  else none

/-- Numeric value of an accepted decimal literal. -/
def decimalVal (neg : Bool) (ip fp : List Char) : ℚ :=
  let mag : ℚ := (natOfDigits ip : ℚ) + (natOfDigits fp : ℚ) / ((10 ^ fp.length : ℕ) : ℚ)
  if neg then -mag else mag

/-- Model of Python `float(s)` on the post-cleaning alphabet. -/
def parsePyFloat (s : String) : Option ℚ :=
  (floatSyntax s).map (fun t => decimalVal t.1 t.2.1 t.2.2)

/-- Translation of `safe_float(value, default)`: `None` maps to the default,
strings are cleaned and parsed with a guard for the degenerate shapes
`''`, `'.'`, `'-'`, `'-.'`, and any parse failure yields the default
instead of an error. -/
def safeFloat (value : PyVal) (dflt : ℚ) : ℚ :=
  match value with
  | .pyNone => dflt
  | .pyNum q => q
  | .pyStr s =>
    let v := cleanCurrency s
    if v = "" || v = "." || v = "-" || v = "-." then dflt
    else
      match parsePyFloat v with
      | some q => q
      | none => dflt

/-- The guard strings of `safe_float` are exactly shapes that `float()`
would reject, so the function's result is determined by the parse of the
cleaned string. -/
theorem safeFloat_eval (s : String) (d : ℚ) :
    safeFloat (.pyStr s) d =
      match parsePyFloat (cleanCurrency s) with
      | some q => q
      | none => d := by
  have hnone : ∀ t : String, t = "" ∨ t = "." ∨ t = "-" ∨ t = "-." →
      parsePyFloat t = none := by
    rintro t (rfl | rfl | rfl | rfl) <;> rfl
  simp only [safeFloat]
  split_ifs with hg
  · simp only [Bool.or_eq_true, decide_eq_true_eq] at hg
    rw [hnone (cleanCurrency s) (by tauto)]
  · rfl

/-- C4: currency coercion returns `1500000.0` for `"$1,500,000"` and for
`"1500000"`, and the caller's default for `""` and for `None`; for every
string whose cleaned form fails to parse as a float it also returns the
default rather than raising. -/
theorem safe_float_currency_coercion (d : ℚ) :
    safeFloat (.pyStr "$1,500,000") d = 1500000 ∧
    safeFloat (.pyStr "1500000") d = 1500000 ∧
    safeFloat (.pyStr "") d = d ∧
    safeFloat .pyNone d = d ∧
    (∀ s, parsePyFloat (cleanCurrency s) = none → safeFloat (.pyStr s) d = d) := by
  have hval : ∀ s : String, floatSyntax s = some (false, "1500000".data, []) →
      parsePyFloat s = some 1500000 := by
    intro s hs
    rw [parsePyFloat, hs, Option.map_some']
    congr 1
    rw [decimalVal, show natOfDigits "1500000".data = 1500000 from by decide,
      show natOfDigits [] = 0 from rfl]
    norm_num
  refine ⟨?_, ?_, ?_, rfl, ?_⟩
  · rw [safeFloat_eval, hval (cleanCurrency "$1,500,000") (by decide)]
  · rw [safeFloat_eval, hval (cleanCurrency "1500000") (by decide)]
  · rw [safeFloat_eval, show parsePyFloat (cleanCurrency "") = none from rfl]
  · intro s h
    rw [safeFloat_eval, h]

/-- C4 (witness): the default-on-invalid clause evaluated on a concrete
malformed currency string. -/
theorem safe_float_currency_coercion_witness :
    safeFloat (.pyStr "12.34.56") 0 = 0 ∧ safeFloat (.pyStr "$1,500,000") 0 = 1500000 :=
  ⟨(safe_float_currency_coercion 0).2.2.2.2 "12.34.56" (by decide),
   (safe_float_currency_coercion 0).1⟩

/-! ### Collector upsert: entity construction and storage merge

Sources: `grants_gov_api_azure/clean_project/src/scripts/enhanced_grant_collector.py`
(entity build and `upsert_entity(entity, mode=UpdateMode.MERGE)`), and the
Azure Table `MergeEntity` operation of the storage collaborator.
-/

/-- Property lookup in an entity or JSON object, modelled as an association
list (first binding wins, as in a Python dict with unique keys). -/
def lookupProp (e : List (String × String)) (k : String) : Option String :=
  (e.find? (fun kv => kv.1 == k)).map (fun kv => kv.2)

/-- Python `d.get(k, dflt)`. -/
def dictGet (d : List (String × String)) (k dflt : String) : String :=
  match lookupProp d k with
  | some v => v
  | none => dflt

/-- Whether an entity carries a property named `k`. -/
def hasProp (e : List (String × String)) (k : String) : Bool :=
  (e.find? (fun kv => kv.1 == k)).isSome

/-- Model of the storage collaborator's `MergeEntity` operation (the effect
of `upsert_entity(..., mode=UpdateMode.MERGE)` on an existing row):
properties named in the written entity take its values, properties absent
from the written entity keep their stored values. -/
def azureMerge (stored new : List (String × String)) : List (String × String) :=
  new ++ stored.filter (fun kv => !(hasProp new kv.1))

/-- The collector's `clean_text` on a string value: null characters are
removed (`str(text).replace("\u0000","").replace("\x00","")`). -/
def cleanTextC (s : String) : String :=
  ⟨s.data.filter (fun c => c ≠ '\x00')⟩

/-- Entity built by `enhanced_grant_collector.main` for one search hit: every
canonical column is always present, with `opportunity.get(...)` defaults —
empty string for most fields and the placeholder
`"Retrieved from Grants.gov API"` for `Description`. -/
def buildCollectorEntity (opp : List (String × String)) (now : String) :
    List (String × String) :=
  let oppId := dictGet opp "id" ""
  [("PartitionKey", "Grant"),
   ("RowKey", oppId),
   ("Title", cleanTextC (dictGet opp "title" "")),
   ("Number", cleanTextC (dictGet opp "number" "")),
   ("AgencyCode", cleanTextC (dictGet opp "agencyCode" "")),
   ("AgencyName", cleanTextC (dictGet opp "agency" "")),
   ("Category", cleanTextC (dictGet opp "fundingCategory" "")),
   ("CFDANumbers", cleanTextC (dictGet opp "cfda" "")),
   ("Description", cleanTextC (dictGet opp "description" "Retrieved from Grants.gov API")),
   ("CloseDate", cleanTextC (dictGet opp "closeDate" "")),
   ("OpenDate", cleanTextC (dictGet opp "openDate" "")),
   ("AwardFloor", cleanTextC (dictGet opp "awardFloor" "")),
   ("AwardCeiling", cleanTextC (dictGet opp "awardCeiling" "")),
   ("ExpectedAwards", cleanTextC (dictGet opp "expectedNumOfAwards" "")),
   ("DocType", cleanTextC (dictGet opp "docType" "")),
   ("FundingType", cleanTextC (dictGet opp "fundingInstrument" "")),
   ("LastUpdated", now),
   ("OpportunityURL", "https://www.grants.gov/search-results-detail/" ++ oppId)]

/-- Lookup on a cons cell: the head binding wins when its key matches. -/
theorem lookupProp_cons (k1 v : String) (tl : List (String × String)) (k : String) :
    lookupProp ((k1, v) :: tl) k =
      if (k1 == k) = true then some v else lookupProp tl k := by
  simp only [lookupProp, List.find?]
  cases h : (k1 == k)
  · simp [lookupProp, h]
  · simp [h]

/-- Lookup distributes over append, preferring the left list. -/
theorem lookupProp_append (a b : List (String × String)) (k : String) :
    lookupProp (a ++ b) k =
      match lookupProp a k with
      | some v => some v
      | none => lookupProp b k := by
  induction a with
  | nil => simp [lookupProp]
  | cons kv tl ih =>
    simp only [lookupProp, List.cons_append, List.find?]
    cases hkv : (kv.1 == k)
    · simpa [lookupProp] using ih
    · simp

/-- Filtering out the keys overwritten by the new entity does not disturb
lookups of keys the new entity lacks. -/
theorem lookupProp_filter_merge (stored new : List (String × String)) (k : String)
    (h : hasProp new k = false) :
    lookupProp (stored.filter (fun kv => !(hasProp new kv.1))) k =
      lookupProp stored k := by
  induction stored with
  | nil => rfl
  | cons kv tl ih =>
    simp only [List.filter]
    cases hkv : (kv.1 == k)
    · cases hkeep : !(hasProp new kv.1)
      · simpa [lookupProp, List.find?, hkv] using ih
      · simpa [lookupProp, List.find?, hkv] using ih
    · have hk : kv.1 = k := by simpa using hkv
      rw [hk, h]
      simp [lookupProp, List.find?, hkv]

/-- Key-level semantics of the merge upsert. -/
theorem azureMerge_lookup (stored new : List (String × String)) (k : String) :
    lookupProp (azureMerge stored new) k =
      match lookupProp new k with
      | some v => some v
      | none => lookupProp stored k := by
  rw [azureMerge, lookupProp_append]
  cases h : lookupProp new k with
  | some v => rfl
  | none =>
    have hh : hasProp new k = false := by
      rw [lookupProp, Option.map_eq_none'] at h
      rw [hasProp, h]
      rfl
    simp only [lookupProp_filter_merge stored new k hh]

/-- C1 (counterexample): a stored grant with a non-empty Description and
AwardCeiling, merged with the entity the collector builds for a search hit
carrying only `id` and `title`, loses both stored values — Description
becomes the placeholder and AwardCeiling becomes the empty string. -/
theorem upsert_merge_not_preserving_cex :
    lookupProp (azureMerge
        [("PartitionKey", "Grant"), ("RowKey", "G1"),
         ("Description", "A detailed description"), ("AwardCeiling", "500000")]
        (buildCollectorEntity [("id", "G1"), ("title", "New Title")]
          "2025-01-01T00:00:00"))
      "Description" = some "Retrieved from Grants.gov API" ∧
    lookupProp (azureMerge
        [("PartitionKey", "Grant"), ("RowKey", "G1"),
         ("Description", "A detailed description"), ("AwardCeiling", "500000")]
        (buildCollectorEntity [("id", "G1"), ("title", "New Title")]
          "2025-01-01T00:00:00"))
      "AwardCeiling" = some "" := by
  constructor <;> rfl

/-- C1 (amended): the merge upsert overwrites exactly the properties present
in the written entity and leaves properties absent from it untouched; but
the collector's entity always carries every canonical column, so an upsert
whose raw record has fresh values only for `id` and `title` still overwrites
the stored Description (with the placeholder) and the stored AwardCeiling
(with the empty string). -/
theorem upsert_merge_overwrites_entity_keys
    (stored opp : List (String × String)) (now : String)
    (hdesc : lookupProp opp "description" = none)
    (hceil : lookupProp opp "awardCeiling" = none) :
    lookupProp (azureMerge stored (buildCollectorEntity opp now)) "Description"
      = some "Retrieved from Grants.gov API" ∧
    lookupProp (azureMerge stored (buildCollectorEntity opp now)) "AwardCeiling"
      = some "" ∧
    (∀ k, lookupProp (buildCollectorEntity opp now) k = none →
      lookupProp (azureMerge stored (buildCollectorEntity opp now)) k
        = lookupProp stored k) := by
  have hdg : dictGet opp "description" "Retrieved from Grants.gov API"
      = "Retrieved from Grants.gov API" := by rw [dictGet, hdesc]
  have hcg : dictGet opp "awardCeiling" "" = "" := by rw [dictGet, hceil]
  have hD : lookupProp (buildCollectorEntity opp now) "Description"
      = some "Retrieved from Grants.gov API" := by
    simp [buildCollectorEntity, lookupProp_cons, hdg]
    try rfl
  have hC : lookupProp (buildCollectorEntity opp now) "AwardCeiling" = some "" := by
    simp [buildCollectorEntity, lookupProp_cons, hcg]
    try rfl
  refine ⟨?_, ?_, ?_⟩
  · rw [azureMerge_lookup, hD]
  · rw [azureMerge_lookup, hC]
  · intro k hk
    rw [azureMerge_lookup, hk]

/-- C1 (witness): the amended merge theorem evaluated on a concrete stored
row and a concrete id/title-only search hit. -/
theorem upsert_merge_overwrites_entity_keys_witness :
    lookupProp (azureMerge [("Description", "Old"), ("Color", "blue")]
        (buildCollectorEntity [("id", "G1"), ("title", "T")] "2025"))
      "Description" = some "Retrieved from Grants.gov API" ∧
    lookupProp (azureMerge [("Description", "Old"), ("Color", "blue")]
        (buildCollectorEntity [("id", "G1"), ("title", "T")] "2025"))
      "Color" = some "blue" := by
  have h := upsert_merge_overwrites_entity_keys
    [("Description", "Old"), ("Color", "blue")]
    [("id", "G1"), ("title", "T")] "2025" (by rfl) (by rfl)
  exact ⟨h.1, h.2.2 "Color" (by rfl)⟩

/-! ### Award-range invariant and the fix_grant repair pass

Sources: `src/scripts/resilient_grant_scraper.py` (`fix_grant`, the
floor/ceiling swap), and the entity builder above for the search-collector
ingestion path.
-/

/-- The award fields of the `updates` dict assembled by `fix_grant`; `none`
means the key is absent. -/
structure AwardUpdates where
  awardFloor : Option ℚ
  awardCeiling : Option ℚ
deriving DecidableEq

/-- Translation of the repair step of `fix_grant`: when both keys are in
`updates` and `AwardFloor > AwardCeiling > 0`, the two values are swapped;
otherwise `updates` is left as it is. -/
def fixAwardOrder (u : AwardUpdates) : AwardUpdates :=
  match u.awardFloor, u.awardCeiling with
  | some f, some c => if f > c ∧ c > 0 then ⟨some c, some f⟩ else u
  | _, _ => u

/-- C2 (counterexample): the search-collector ingestion path persists a
violating pair untouched — a hit with `awardFloor="500000"` and
`awardCeiling="1000"` is stored exactly as received even though the coerced
values satisfy floor > ceiling > 0. -/
theorem award_violation_stored_unswapped_cex :
    lookupProp (buildCollectorEntity
        [("id", "G2"), ("title", "T"), ("awardFloor", "500000"),
         ("awardCeiling", "1000")] "2025-01-01T00:00:00") "AwardFloor"
      = some "500000" ∧
    lookupProp (buildCollectorEntity
        [("id", "G2"), ("title", "T"), ("awardFloor", "500000"),
         ("awardCeiling", "1000")] "2025-01-01T00:00:00") "AwardCeiling"
      = some "1000" ∧
    safeFloat (.pyStr "1000") 0 < safeFloat (.pyStr "500000") 0 ∧
    0 < safeFloat (.pyStr "1000") 0 := by
  refine ⟨rfl, rfl, ?_, ?_⟩
  · rw [safeFloat_eval, safeFloat_eval,
      show parsePyFloat (cleanCurrency "1000") = some ((1000 : ℕ) : ℚ) from ?_,
      show parsePyFloat (cleanCurrency "500000") = some ((500000 : ℕ) : ℚ) from ?_]
    · norm_num
    · rw [show cleanCurrency "500000" = "500000" from rfl, parsePyFloat,
        show floatSyntax "500000" = some (false, "500000".data, []) from by decide,
        Option.map_some']
      rw [decimalVal, show natOfDigits "500000".data = 500000 from by decide,
        show natOfDigits [] = 0 from rfl]
      norm_num
    · rw [show cleanCurrency "1000" = "1000" from rfl, parsePyFloat,
        show floatSyntax "1000" = some (false, "1000".data, []) from by decide,
        Option.map_some']
      rw [decimalVal, show natOfDigits "1000".data = 1000 from by decide,
        show natOfDigits [] = 0 from rfl]
      norm_num
  · rw [safeFloat_eval,
      show parsePyFloat (cleanCurrency "1000") = some ((1000 : ℕ) : ℚ) from ?_]
    · norm_num
    · rw [show cleanCurrency "1000" = "1000" from rfl, parsePyFloat,
        show floatSyntax "1000" = some (false, "1000".data, []) from by decide,
        Option.map_some']
      rw [decimalVal, show natOfDigits "1000".data = 1000 from by decide,
        show natOfDigits [] = 0 from rfl]
      norm_num

/-- C2 (amended): only the `fix_grant` repair pass applies the check — there,
a violating pair with floor > ceiling > 0 is swapped, restoring
floor ≤ ceiling, and every non-violating pair is left unchanged; the
search-collector ingestion path stores `awardFloor`/`awardCeiling` exactly
as received (modulo null-byte cleaning), without the check. -/
theorem fix_grant_award_swap (f c : ℚ) (hfc : c < f) (hc : 0 < c) :
    fixAwardOrder ⟨some f, some c⟩ = ⟨some c, some f⟩ ∧
    (∃ f2 c2, (fixAwardOrder ⟨some f, some c⟩).awardFloor = some f2 ∧
      (fixAwardOrder ⟨some f, some c⟩).awardCeiling = some c2 ∧ f2 ≤ c2) ∧
    (∀ g d : ℚ, ¬(d < g ∧ 0 < d) → fixAwardOrder ⟨some g, some d⟩ = ⟨some g, some d⟩) ∧
    (∀ opp now s, lookupProp opp "awardFloor" = some s →
      lookupProp (buildCollectorEntity opp now) "AwardFloor" = some (cleanTextC s)) := by
  have hswap : fixAwardOrder ⟨some f, some c⟩ = ⟨some c, some f⟩ := by
    rw [fixAwardOrder]
    exact if_pos ⟨hfc, hc⟩
  refine ⟨hswap, ?_, ?_, ?_⟩
  · exact ⟨c, f, by rw [hswap], by rw [hswap], le_of_lt hfc⟩
  · intro g d hno
    rw [fixAwardOrder]
    exact if_neg hno
  · intro opp now s hs
    have hg : dictGet opp "awardFloor" "" = s := by rw [dictGet, hs]
    simp [buildCollectorEntity, lookupProp_cons, hg]

/-- C2 (witness): the swap theorem evaluated at the concrete violating pair
floor = 500000, ceiling = 1000. -/
theorem fix_grant_award_swap_witness :
    fixAwardOrder ⟨some 500000, some 1000⟩ = ⟨some 1000, some 500000⟩ ∧
    lookupProp (buildCollectorEntity [("awardFloor", "7")] "t") "AwardFloor"
      = some (cleanTextC "7") := by
  have h := fix_grant_award_swap 500000 1000 (by norm_num) (by norm_num)
  exact ⟨h.1, h.2.2.2 [("awardFloor", "7")] "t" "7" (by rfl)⟩

/-! ### Detail-fetch retry loop

Source: `src/scripts/resilient_grant_scraper.py`, `get_api_grant_details`,
first loop (`fetchOpportunity`, `for retry in range(max_retries)`).  One
attempt observes either a non-200 HTTP status, a 200 response whose body
parses (with an `errorcode` and a `data` key flag) or fails to parse
(malformed JSON), or an exception such as a timeout.
-/

/-- Parse outcome of a 200 response body. -/
inductive BodyResult where
  | malformed : BodyResult
  | parsed : Nat → Bool → BodyResult
deriving DecidableEq

/-- Observable outcome of one fetch attempt. -/
inductive Attempt where
  | httpStatus : Nat → Attempt
  | ok200 : BodyResult → Attempt
  | exc : Attempt
deriving DecidableEq

/-- Result of the loop: data returned from this source at a given attempt
index, or fall-through to the next source after a number of attempts. -/
inductive FetchResult where
  | found : Nat → FetchResult
  | fallThrough : Nat → FetchResult
deriving DecidableEq

/-- The retry cap of `get_api_grant_details` (`max_retries=3`). -/
def maxRetries : ℕ := 3

/-- One-for-one translation of the control flow of the `fetchOpportunity`
loop, driven by the sequence of attempt outcomes: a 403 or 429 backs off
and `continue`s; a 200 whose JSON parses with `errorcode = 0` and a `data`
key returns the data; any other status (and a 200 with an API error or no
data) `break`s to the next source; an exception retries unless this was the
final allowed attempt.  The fuel argument counts the loop iterations still
permitted, `maxRetries - retry`. -/
def fetchLoop (outcomes : ℕ → Attempt) : ℕ → ℕ → FetchResult
  | 0, retry => .fallThrough retry
  | fuel + 1, retry =>
    match outcomes retry with
    | .httpStatus code =>
      if code = 403 ∨ code = 429 then fetchLoop outcomes fuel (retry + 1)
      else .fallThrough (retry + 1)
    | .ok200 .malformed =>
      if retry < maxRetries - 1 then fetchLoop outcomes fuel (retry + 1)
      else .fallThrough (retry + 1)
    | .ok200 (.parsed errorcode hasData) =>
      if errorcode = 0 ∧ hasData then .found retry
      else .fallThrough (retry + 1)
    | .exc =>
      if retry < maxRetries - 1 then fetchLoop outcomes fuel (retry + 1)
      else .fallThrough (retry + 1)

/-- The whole first loop of `get_api_grant_details`, starting at attempt 0
with the full retry budget. -/
def runFetchOpp (outcomes : ℕ → Attempt) : FetchResult :=
  fetchLoop outcomes maxRetries 0

/-- The backoff delay computed on a retryable response:
`(2 ** retry) + random.uniform(1, 3)`. -/
def backoffDelay (retry : ℕ) (jitter : ℚ) : ℚ := 2 ^ retry + jitter

/-- Outcomes after which the loop proceeds to another attempt of the same
source (when budget remains): rate-limit statuses 403/429, an exception
(timeout), and malformed JSON in a 200 body. -/
def retryableOutcome (a : Attempt) : Prop :=
  a = .httpStatus 403 ∨ a = .httpStatus 429 ∨ a = .exc ∨ a = .ok200 .malformed

instance (a : Attempt) : Decidable (retryableOutcome a) := by
  unfold retryableOutcome
  infer_instance

/-- If every attempt before `k` is retryable and attempt `k` delivers a
well-formed payload, the loop returns the data of attempt `k`. -/
theorem fetchLoop_found_of_retryable (f : ℕ → Attempt) (fuel retry k : ℕ)
    (hfr : retry + fuel = maxRetries) (hrk : retry ≤ k) (hk : k < maxRetries)
    (hret : ∀ j, retry ≤ j → j < k → retryableOutcome (f j))
    (hfk : f k = .ok200 (.parsed 0 true)) :
    fetchLoop f fuel retry = .found k := by
  have hm : maxRetries = 3 := rfl
  induction fuel generalizing retry with
  | zero => omega
  | succ fuel ih =>
    rcases Nat.eq_or_lt_of_le hrk with rfl | hlt
    · simp only [fetchLoop]
      rw [hfk]
      simp
    · have hr := hret retry le_rfl hlt
      have hrec := ih (retry + 1) (by omega) (by omega)
        (fun j hj1 hj2 => hret j (by omega) hj2)
      rcases hr with h | h | h | h
      · simp only [fetchLoop]
        rw [h]
        simpa using hrec
      · simp only [fetchLoop]
        rw [h]
        simpa using hrec
      · simp only [fetchLoop]
        rw [h]
        rw [if_pos (by omega)]
        exact hrec
      · simp only [fetchLoop]
        rw [h]
        rw [if_pos (by omega)]
        exact hrec

/-- C3 (counterexample): after a single 403 the loop retries the same source
and accepts its data on the second attempt (no immediate fall-through), and
after a single 500 it falls through at once even though the next attempt of
the same source would have succeeded (no retry of 5xx). -/
theorem fetch_retry_policy_cex :
    runFetchOpp (fun n => if n = 0 then .httpStatus 403 else .ok200 (.parsed 0 true))
      = .found 1 ∧
    runFetchOpp (fun n => if n = 0 then .httpStatus 500 else .ok200 (.parsed 0 true))
      = .fallThrough 1 := by
  constructor <;> rfl

/-- C3 (amended): in the detail-fetch loop, HTTP 403 and 429 (and exceptions
such as timeouts, and malformed JSON) are the retried outcomes — repeated,
they consume the whole capped budget before the fetcher falls through —
while every other non-200 status, 5xx included, causes immediate
fall-through to the next source after a single attempt; a well-formed
payload obtained within the cap after retryable outcomes is accepted from
the same source, and the backoff delay grows exponentially in the retry
index with jitter bounded between 1 and 3. -/
theorem fetch_retry_policy (f : ℕ → Attempt) (code k : ℕ)
    (h4 : code ≠ 403) (h9 : code ≠ 429)
    (hk : k < maxRetries)
    (hret : ∀ j, j < k → retryableOutcome (f j))
    (hfk : f k = .ok200 (.parsed 0 true)) :
    (∀ c, c = 403 ∨ c = 429 →
      runFetchOpp (fun _ => .httpStatus c) = .fallThrough maxRetries) ∧
    runFetchOpp (fun _ => .exc) = .fallThrough maxRetries ∧
    runFetchOpp (fun _ => .ok200 .malformed) = .fallThrough maxRetries ∧
    (∀ g : ℕ → Attempt, g 0 = .httpStatus code → runFetchOpp g = .fallThrough 1) ∧
    runFetchOpp f = .found k ∧
    (∀ r, ∀ j : ℚ, 1 ≤ j → j ≤ 3 →
      2 ^ r + 1 ≤ backoffDelay r j ∧ backoffDelay r j ≤ 2 ^ r + 3 ∧
      backoffDelay r j < backoffDelay (r + 1) j) := by
  refine ⟨?_, rfl, rfl, ?_, ?_, ?_⟩
  · rintro c (rfl | rfl) <;> rfl
  · intro g hg
    show fetchLoop g (2 + 1) 0 = .fallThrough 1
    rw [fetchLoop, hg]
    show (if code = 403 ∨ code = 429 then fetchLoop g 2 (0 + 1)
        else .fallThrough (0 + 1)) = .fallThrough 1
    rw [if_neg (by tauto)]
  · exact fetchLoop_found_of_retryable f maxRetries 0 k rfl (Nat.zero_le k) hk
      (fun j _ hj => hret j hj) hfk
  · intro r j hj1 hj3
    unfold backoffDelay
    have hp : (0 : ℚ) < 2 ^ r := by positivity
    refine ⟨by linarith, by linarith, ?_⟩
    rw [pow_succ]
    linarith

/-- C3 (witness): the amended retry-policy theorem evaluated on a concrete
outcome sequence — a timeout followed by a well-formed payload. -/
theorem fetch_retry_policy_witness :
    runFetchOpp (fun n => if n = 0 then .exc else .ok200 (.parsed 0 true))
      = .found 1 ∧
    runFetchOpp (fun _ => .exc) = .fallThrough maxRetries := by
  have h := fetch_retry_policy
    (fun n => if n = 0 then .exc else .ok200 (.parsed 0 true)) 500 1
    (by decide) (by decide) (by decide)
    (fun j hj => by
      interval_cases j
      · exact Or.inr (Or.inr (Or.inl rfl)))
    (by decide)
  exact ⟨h.2.2.2.2.1, h.2.1⟩

/-! ### Normalizer rejection

Source: `grants.gov.api/grants.gov_api/grants_gov/etl/transform.py`,
`GrantDataTransformer.transform_opportunities`.
-/

/-- A JSON value in the transformed record: Python `None`, a string, a
boolean, or the retained raw payload (`json.dumps(opp)` kept opaque). -/
inductive JVal where
  | jNull : JVal
  | jStr : String → JVal
  | jBool : Bool → JVal
  | jObj : List (String × String) → JVal
deriving DecidableEq

/-- Lift an optional string field into a JSON value (`None` when absent). -/
def jOfOpt (o : Option String) : JVal :=
  match o with
  | some s => .jStr s
  | none => .jNull

/-- Python `str(x)` as used inside an f-string on an optional value. -/
def pyStrOf (o : Option String) : String :=
  match o with
  | some s => s
  | none => "None"

/-- Python truthiness of `opp.get(k)`: false when the key is absent or its
value is the empty string. -/
def truthyKey (opp : List (String × String)) (k : String) : Bool :=
  match lookupProp opp k with
  | some v => !(v == "")
  | none => false

/-- The canonical record built for one accepted opportunity — a line-by-line
translation of the dict literal in `transform_opportunities`. -/
def transformOpp (opp : List (String × String)) : List (String × JVal) :=
  [("id", jOfOpt (lookupProp opp "id")),
   ("opportunity_url", .jStr ("https://www.grants.gov/search-results-detail/"
      ++ pyStrOf (lookupProp opp "id"))),
   ("title", jOfOpt (lookupProp opp "title")),
   ("deadline", jOfOpt (lookupProp opp "closeDate")),
   ("time_zone", .jStr "Eastern Time (ET)"),
   ("award_value", .jNull),
   ("cash_award", .jNull),
   ("direct_link_to_apply_url", .jStr ("https://www.grants.gov/apply-for-grants/opportunities/"
      ++ pyStrOf (lookupProp opp "id"))),
   ("opportunity_gap", .jNull),
   ("type", .jStr "Grant"),
   ("global_opportunity", .jBool false),
   ("global_locations", .jStr "North America"),
   ("countries_eligible", .jStr "United States"),
   ("location_details", .jStr "United States"),
   ("short_description", .jStr ((dictGet opp "description" "").take 500)),
   ("eligibility", .jNull),
   ("long_description", jOfOpt (lookupProp opp "description")),
   ("target_community", .jNull),
   ("opportunity_logo_url", .jNull),
   ("date_posted", jOfOpt (lookupProp opp "openDate")),
   ("industry", .jNull),
   ("service_provider", jOfOpt (lookupProp opp "agency")),
   ("eso_website", .jNull),
   ("contact_email", .jNull),
   ("agency", jOfOpt (lookupProp opp "agency")),
   ("agency_code", jOfOpt (lookupProp opp "agencyCode")),
   ("opportunity_number", jOfOpt (lookupProp opp "number")),
   ("opportunity_status", jOfOpt (lookupProp opp "oppStatus")),
   ("open_date", jOfOpt (lookupProp opp "openDate")),
   ("close_date", jOfOpt (lookupProp opp "closeDate")),
   ("raw_data", .jObj opp)]

/-- Translation of `transform_opportunities`: payloads whose `id` or `title`
is falsy are skipped with a warning; each remaining payload yields exactly
one canonical record. -/
def transformOpportunities (opps : List (List (String × String))) :
    List (List (String × JVal)) :=
  opps.filterMap (fun opp =>
    if truthyKey opp "id" && truthyKey opp "title" then some (transformOpp opp)
    else none)

/-- C7: a payload missing (or carrying a falsy) `id` or `title` contributes
nothing to the transformed output — no record, no defaults — and the count
of rejected payloads (batch size minus output size) increments by exactly
one; every payload with truthy `id` and `title` yields exactly one
canonical record. -/
theorem normalizer_rejection (batch : List (List (String × String)))
    (p : List (String × String))
    (hrej : ¬(truthyKey p "id" = true ∧ truthyKey p "title" = true)) :
    transformOpportunities (batch ++ [p]) = transformOpportunities batch ∧
    (batch ++ [p]).length - (transformOpportunities (batch ++ [p])).length
      = (batch.length - (transformOpportunities batch).length) + 1 ∧
    (∀ q, truthyKey q "id" = true → truthyKey q "title" = true →
      transformOpportunities [q] = [transformOpp q]) := by
  have hf : (if truthyKey p "id" && truthyKey p "title"
      then some (transformOpp p) else none) = none := by
    rw [if_neg]
    simpa [Bool.and_eq_true] using hrej
  have hdrop : transformOpportunities (batch ++ [p]) = transformOpportunities batch := by
    rw [transformOpportunities, List.filterMap_append]
    rw [show transformOpportunities batch = List.filterMap _ batch from rfl]
    simp [hf]
    intro h1
    cases h2 : truthyKey p "title"
    · rfl
    · exact absurd ⟨h1, h2⟩ hrej
  have hlen : (transformOpportunities batch).length ≤ batch.length :=
    List.length_filterMap_le _ _
  refine ⟨hdrop, ?_, ?_⟩
  · rw [hdrop, List.length_append, List.length_singleton]
    omega
  · intro q h1 h2
    simp [transformOpportunities, h1, h2]

/-- C7 (witness): the rejection theorem evaluated on a concrete payload with
a title but no id, and a concrete complete payload. -/
theorem normalizer_rejection_witness :
    transformOpportunities ([] ++ [[("title", "T")]]) = transformOpportunities [] ∧
    transformOpportunities [[("id", "1"), ("title", "T")]]
      = [transformOpp [("id", "1"), ("title", "T")]] := by
  have h := normalizer_rejection [] [("title", "T")] (by decide)
  exact ⟨h.1, h.2.2 [("id", "1"), ("title", "T")] (by decide) (by decide)⟩

/-! ### Retention cleanup

Source: `grants_gov_api_azure/clean_project/src/scripts/cleanup_old_grants.py`.
The script computes `threshold = (now - 90 days).isoformat()`, selects
`grant.get("LastUpdated", datetime.max.isoformat()) < threshold` and deletes
the selected rows.  ISO timestamps compare correctly as strings, so the
string order below is the comparison the script performs.
-/

/-- A stored grant row, with the fields the cleanup script touches. -/
structure StoredGrant where
  rowKey : String
  lastUpdated : Option String
  title : String
deriving DecidableEq

/-- Python `datetime.max.isoformat()`, the default used for rows without a
`LastUpdated` property. -/
def maxIsoTimestamp : String := "9999-12-31T23:59:59.999999"

/-- Python string `<`: lexicographic comparison by code point. -/
def pyStrLtB : List Char → List Char → Bool
  | [], [] => false
  | [], _ :: _ => true
  | _ :: _, [] => false
  | a :: as, b :: bs =>
    if a < b then true else if b < a then false else pyStrLtB as bs

/-- Python string `<` on strings. -/
def pyStrLt (s t : String) : Bool := pyStrLtB s.data t.data

/-- The rows the script selects for deletion. -/
def selectOldGrants (store : List StoredGrant) (threshold : String) :
    List StoredGrant :=
  store.filter (fun g => pyStrLt (g.lastUpdated.getD maxIsoTimestamp) threshold)

/-- The store after the deletion loop: exactly the unselected rows, each
unchanged. -/
def cleanupStore (store : List StoredGrant) (threshold : String) :
    List StoredGrant :=
  store.filter (fun g => !(pyStrLt (g.lastUpdated.getD maxIsoTimestamp) threshold))

/-- C9: the cleanup pass deletes exactly the stored grants whose LastUpdated
is present and compares earlier than the age threshold; a grant without
LastUpdated is given the maximal timestamp as default and is never
selected; grants at or after the threshold remain in the store unchanged. -/
theorem cleanup_retention (store : List StoredGrant) (threshold : String)
    (g : StoredGrant) (hth : pyStrLt maxIsoTimestamp threshold = false) :
    (g ∈ selectOldGrants store threshold ↔
      g ∈ store ∧ ∃ s, g.lastUpdated = some s ∧ pyStrLt s threshold = true) ∧
    (g.lastUpdated = none → g ∉ selectOldGrants store threshold) ∧
    (g ∈ cleanupStore store threshold ↔
      g ∈ store ∧ ¬∃ s, g.lastUpdated = some s ∧ pyStrLt s threshold = true) := by
  have hsel : ∀ h : StoredGrant,
      (pyStrLt (h.lastUpdated.getD maxIsoTimestamp) threshold = true) ↔
        ∃ s, h.lastUpdated = some s ∧ pyStrLt s threshold = true := by
    intro h
    cases hu : h.lastUpdated with
    | none =>
      simp only [Option.getD_none]
      constructor
      · intro hlt
        rw [hth] at hlt
        exact absurd hlt (by simp)
      · rintro ⟨s, hs, _⟩
        exact absurd hs (by simp)
    | some s =>
      simp only [Option.getD_some]
      constructor
      · intro hlt
        exact ⟨s, rfl, hlt⟩
      · rintro ⟨s2, hs2, hlt⟩
        cases hs2
        exact hlt
  refine ⟨?_, ?_, ?_⟩
  · rw [selectOldGrants, List.mem_filter, hsel g]
  · intro hnone hmem
    rw [selectOldGrants, List.mem_filter, hsel g] at hmem
    rcases hmem.2 with ⟨s, hs, _⟩
    rw [hnone] at hs
    exact absurd hs (by simp)
  · rw [cleanupStore, List.mem_filter]
    have hneg : (!(pyStrLt (g.lastUpdated.getD maxIsoTimestamp) threshold)) = true ↔
        ¬∃ s, g.lastUpdated = some s ∧ pyStrLt s threshold = true := by
      rw [Bool.not_eq_true', Bool.eq_false_iff]
      exact not_congr (hsel g)
    rw [hneg]

/-- C9 (witness): the retention theorem evaluated on a concrete store — a
stale dated grant is selected for deletion, an undated grant is not. -/
theorem cleanup_retention_witness :
    (⟨"G1", some "2020-01-01T00:00:00", "old"⟩ : StoredGrant) ∈
      selectOldGrants
        [⟨"G1", some "2020-01-01T00:00:00", "old"⟩, ⟨"G2", none, "undated"⟩]
        "2025-07-14T00:00:00" ∧
    (⟨"G2", none, "undated"⟩ : StoredGrant) ∉
      selectOldGrants
        [⟨"G1", some "2020-01-01T00:00:00", "old"⟩, ⟨"G2", none, "undated"⟩]
        "2025-07-14T00:00:00" := by
  have h1 := cleanup_retention
    [⟨"G1", some "2020-01-01T00:00:00", "old"⟩, ⟨"G2", none, "undated"⟩]
    "2025-07-14T00:00:00" ⟨"G1", some "2020-01-01T00:00:00", "old"⟩ (by decide)
  have h2 := cleanup_retention
    [⟨"G1", some "2020-01-01T00:00:00", "old"⟩, ⟨"G2", none, "undated"⟩]
    "2025-07-14T00:00:00" ⟨"G2", none, "undated"⟩ (by decide)
  exact ⟨h1.1.2 ⟨by decide, "2020-01-01T00:00:00", rfl, by decide⟩, h2.2.1 rfl⟩

/-! ### Date normalization

Sources: `src/scripts/resilient_grant_scraper.py` `format_date` (nine
`strptime` formats tried in order, unparseable non-empty input returned
unchanged) and `secondary_sources/grant_gov/etl_script.py`
`parse_grants_date` (8-digit `MMDDYYYY` only, `None` otherwise).  The
`strptime` model below follows CPython's `_strptime` regular expressions —
each numeric directive offers its two-digit and one-digit alternatives in
regex order with backtracking, the format must consume the whole string,
and `datetime` construction then validates the day against the month. -/

/-- Candidate matches of the `%m`/`%I` directive (`1[0-2]|0[1-9]|[1-9]`),
in regex alternation order. -/
def candsMonth : List Char → List (ℕ × List Char)
  | c1 :: c2 :: rest =>
    (if c1 = '1' ∧ '0' ≤ c2 ∧ c2 ≤ '2' then [(10 + digitVal c2, rest)] else []) ++
    (if c1 = '0' ∧ '1' ≤ c2 ∧ c2 ≤ '9' then [(digitVal c2, rest)] else []) ++
    (if '1' ≤ c1 ∧ c1 ≤ '9' then [(digitVal c1, c2 :: rest)] else [])
  | [c1] => if '1' ≤ c1 ∧ c1 ≤ '9' then [(digitVal c1, [])] else []
  | [] => []

/-- Candidate matches of the `%d` directive (`3[01]|[12]\d|0[1-9]|[1-9]`). -/
def candsDay : List Char → List (ℕ × List Char)
  | c1 :: c2 :: rest =>
    (if c1 = '3' ∧ (c2 = '0' ∨ c2 = '1') then [(30 + digitVal c2, rest)] else []) ++
    (if ('1' ≤ c1 ∧ c1 ≤ '2') ∧ isAsciiDigit c2 = true then
      [(10 * digitVal c1 + digitVal c2, rest)] else []) ++
    (if c1 = '0' ∧ '1' ≤ c2 ∧ c2 ≤ '9' then [(digitVal c2, rest)] else []) ++
    (if '1' ≤ c1 ∧ c1 ≤ '9' then [(digitVal c1, c2 :: rest)] else [])
  | [c1] => if '1' ≤ c1 ∧ c1 ≤ '9' then [(digitVal c1, [])] else []
  | [] => []

/-- Candidate matches of the `%H` directive (`2[0-3]|[0-1]\d|\d`). -/
def candsHour24 : List Char → List (ℕ × List Char)
  | c1 :: c2 :: rest =>
    (if c1 = '2' ∧ '0' ≤ c2 ∧ c2 ≤ '3' then [(20 + digitVal c2, rest)] else []) ++
    (if ('0' ≤ c1 ∧ c1 ≤ '1') ∧ isAsciiDigit c2 = true then
      [(10 * digitVal c1 + digitVal c2, rest)] else []) ++
    (if isAsciiDigit c1 = true then [(digitVal c1, c2 :: rest)] else [])
  | [c1] => if isAsciiDigit c1 = true then [(digitVal c1, [])] else []
  | [] => []

/-- Candidate matches of the `%M` directive (`[0-5]\d|\d`). -/
def candsMinute : List Char → List (ℕ × List Char)
  | c1 :: c2 :: rest =>
    (if ('0' ≤ c1 ∧ c1 ≤ '5') ∧ isAsciiDigit c2 = true then
      [(10 * digitVal c1 + digitVal c2, rest)] else []) ++
    (if isAsciiDigit c1 = true then [(digitVal c1, c2 :: rest)] else [])
  | [c1] => if isAsciiDigit c1 = true then [(digitVal c1, [])] else []
  | [] => []

/-- The `%Y` directive: exactly four digits. -/
def candsYear : List Char → List (ℕ × List Char)
  | c1 :: c2 :: c3 :: c4 :: rest =>
    if isAsciiDigit c1 && isAsciiDigit c2 && isAsciiDigit c3 && isAsciiDigit c4 then
      [(1000 * digitVal c1 + 100 * digitVal c2 + 10 * digitVal c3 + digitVal c4, rest)]
    else []
  | _ => []

/-- The `%p` directive: `AM`/`PM`, case-insensitive (`true` means PM). -/
def candsAmPm : List Char → List (Bool × List Char)
  | c1 :: c2 :: rest =>
    if (c1 = 'A' ∨ c1 = 'a') ∧ (c2 = 'M' ∨ c2 = 'm') then [(false, rest)]
    else if (c1 = 'P' ∨ c1 = 'p') ∧ (c2 = 'M' ∨ c2 = 'm') then [(true, rest)]
    else []
  | _ => []

/-- A whitespace character in the format matches one or more whitespace
characters of the input. -/
def skipWs1 : List Char → Option (List Char)
  | c :: rest => if isPySpace c then some (rest.dropWhile isPySpace) else none
  | [] => none

/-- Date part `%m<sep>%d<sep>%Y` with regex backtracking; returns
(month, day, year, rest). -/
def parseDateMDY (sep : Char) (cs : List Char) : Option (ℕ × ℕ × ℕ × List Char) :=
  (candsMonth cs).findSome? (fun mc =>
    match mc.2 with
    | c :: rest1 =>
      if c = sep then
        (candsDay rest1).findSome? (fun dc =>
          match dc.2 with
          | c2 :: rest2 =>
            if c2 = sep then
              (candsYear rest2).findSome? (fun yc => some (mc.1, dc.1, yc.1, yc.2))
            else none
          | [] => none)
      else none
    | [] => none)

/-- Date part `%Y<sep>%m<sep>%d`; returns (month, day, year, rest). -/
def parseDateYMD (sep : Char) (cs : List Char) : Option (ℕ × ℕ × ℕ × List Char) :=
  (candsYear cs).findSome? (fun yc =>
    match yc.2 with
    | c :: rest1 =>
      if c = sep then
        (candsMonth rest1).findSome? (fun mc =>
          match mc.2 with
          | c2 :: rest2 =>
            if c2 = sep then
              (candsDay rest2).findSome? (fun dc => some (mc.1, dc.1, yc.1, dc.2))
            else none
          | [] => none)
      else none
    | [] => none)

/-- Conversion of `%I` plus `%p` to a 24-hour value, as `_strptime` does. -/
def hourOf12 (h : ℕ) (pm : Bool) : ℕ :=
  if h = 12 then (if pm then 12 else 0) else (if pm then h + 12 else h)

/-- Time part `%I:%M %p`; returns (hour24, minute, rest). -/
def parseTime12 (cs : List Char) : Option (ℕ × ℕ × List Char) :=
  (candsMonth cs).findSome? (fun hc =>
    match hc.2 with
    | ':' :: rest1 =>
      (candsMinute rest1).findSome? (fun minc =>
        match skipWs1 minc.2 with
        | some rest2 =>
          (candsAmPm rest2).findSome? (fun pc =>
            some (hourOf12 hc.1 pc.1, minc.1, pc.2))
        | none => none)
    | _ => none)

/-- Time part `%H:%M`; returns (hour24, minute, rest). -/
def parseTime24 (cs : List Char) : Option (ℕ × ℕ × List Char) :=
  (candsHour24 cs).findSome? (fun hc =>
    match hc.2 with
    | ':' :: rest1 =>
      (candsMinute rest1).findSome? (fun minc => some (hc.1, minc.1, minc.2))
    | _ => none)

/-- A parsed `datetime` value (seconds and microseconds are always zero for
the nine formats in play). -/
structure PyDateTime where
  year : ℕ
  month : ℕ
  day : ℕ
  hour : ℕ
  minute : ℕ
deriving DecidableEq

/-- Gregorian leap-year rule, as in `calendar`/`datetime`. -/
def isLeapYear (y : ℕ) : Bool := (y % 4 = 0 ∧ y % 100 ≠ 0) ∨ y % 400 = 0

/-- Length of a month, as validated by the `datetime` constructor. -/
def daysInMonth (y m : ℕ) : ℕ :=
  if m = 2 then (if isLeapYear y then 29 else 28)
  else if m = 4 ∨ m = 6 ∨ m = 9 ∨ m = 11 then 30
  else 31

/-- The `datetime(...)` constructor: `ValueError` (modelled as `none`) when
the year leaves [1, 9999] or the day overflows the month. -/
def mkValidDateTime (y m d hh mm : ℕ) : Option PyDateTime :=
  if 1 ≤ y ∧ y ≤ 9999 ∧ d ≤ daysInMonth y m then some ⟨y, m, d, hh, mm⟩
  else none

/-- One date format: the date part, optionally a time part, and the
requirement that the whole string is consumed. -/
def runFormat (pd : List Char → Option (ℕ × ℕ × ℕ × List Char))
    (timeKind : ℕ) (cs : List Char) : Option PyDateTime :=
  match pd cs with
  | some (m, d, y, rest) =>
    match timeKind with
    | 0 => if rest = [] then mkValidDateTime y m d 0 0 else none
    | 1 =>
      match skipWs1 rest with
      | some rest1 =>
        match parseTime12 rest1 with
        | some (hh, mm, rest2) =>
          if rest2 = [] then mkValidDateTime y m d hh mm else none
        | none => none
      | none => none
    | _ =>
      match skipWs1 rest with
      | some rest1 =>
        match parseTime24 rest1 with
        | some (hh, mm, rest2) =>
          if rest2 = [] then mkValidDateTime y m d hh mm else none
        | none => none
      | none => none
  | none => none

/-- The nine formats of `format_date`, tried in the order of the Python
list. -/
def tryFormats (cs : List Char) : Option PyDateTime :=
  (runFormat (parseDateMDY '/') 0 cs).orElse (fun _ =>
  (runFormat (parseDateMDY '-') 0 cs).orElse (fun _ =>
  (runFormat (parseDateYMD '-') 0 cs).orElse (fun _ =>
  (runFormat (parseDateMDY '/') 1 cs).orElse (fun _ =>
  (runFormat (parseDateMDY '-') 1 cs).orElse (fun _ =>
  (runFormat (parseDateYMD '-') 1 cs).orElse (fun _ =>
  (runFormat (parseDateMDY '/') 2 cs).orElse (fun _ =>
  (runFormat (parseDateMDY '-') 2 cs).orElse (fun _ =>
  runFormat (parseDateYMD '-') 2 cs))))))))

/-- Decimal digit character. -/
def digitChar (n : ℕ) : Char := Char.ofNat ('0'.toNat + n)

/-- Two-digit zero-padded rendering. -/
def render2 (n : ℕ) : String := ⟨[digitChar (n / 10 % 10), digitChar (n % 10)]⟩

/-- Four-digit zero-padded rendering. -/
def render4 (n : ℕ) : String :=
  ⟨[digitChar (n / 1000 % 10), digitChar (n / 100 % 10),
    digitChar (n / 10 % 10), digitChar (n % 10)]⟩

/-- `datetime.isoformat()` for the values produced here (seconds zero,
microseconds omitted). -/
def isoformat (dt : PyDateTime) : String :=
  render4 dt.year ++ "-" ++ render2 dt.month ++ "-" ++ render2 dt.day ++ "T"
    ++ render2 dt.hour ++ ":" ++ render2 dt.minute ++ ":00"

/-- Translation of `format_date`: empty input gives `None`; input matching
one of the nine formats is normalized to the ISO representation; anything
else is returned unchanged. -/
def formatDate (dateStr : String) : Option String :=
  if dateStr = "" then none
  else
    match tryFormats dateStr.data with
    | some dt => some (isoformat dt)
    | none => some dateStr

/-- Translation of `parse_grants_date`: only an 8-character `MMDDYYYY`
string whose slices pass `int()` and the range checks (and the
`datetime.date` constructor) yields a date; everything else yields `None`. -/
def parseGrantsDate (dateStr : String) : Option (ℕ × ℕ × ℕ) :=
  if dateStr = "" then none
  else if dateStr.length = 8 then
    match pyInt ⟨dateStr.data.take 2⟩, pyInt ⟨(dateStr.data.drop 2).take 2⟩,
        pyInt ⟨(dateStr.data.drop 4).take 4⟩ with
    | some m, some d, some y =>
      if 1 ≤ m ∧ m ≤ 12 ∧ 1 ≤ d ∧ d ≤ 31 then
        if 1 ≤ y ∧ y ≤ 9999 ∧ d.toNat ≤ daysInMonth y.toNat m.toNat then
          some (y.toNat, m.toNat, d.toNat)
        else none
      else none
    | _, _, _ => none
  else none

/-- C8 (counterexample): `"Apr 13, 2023"` is in the claimed recognized
family "Mon DD, YYYY", yet `parse_grants_date` maps it to `None` — the raw
text is replaced by null, not preserved — and `format_date` does not
normalize it either, returning it raw. -/
theorem date_raw_preservation_cex :
    parseGrantsDate "Apr 13, 2023" = none ∧
    formatDate "Apr 13, 2023" = some "Apr 13, 2023" := by
  constructor
  · rfl
  · rfl

/-- C8 (amended): `format_date` maps its recognized formats — slash, dash
and ISO dates, with optional times — to one canonical ISO representation,
never returns `None` on non-empty input, and preserves unrecognized
non-empty input as raw text; `parse_grants_date`, by contrast, recognizes
only the fixed-width 8-digit `MMDDYYYY` form (with range validation) and
returns null, not the raw text, for every other input, including the
"Mon DD, YYYY" family. -/
theorem date_normalization (s : String) (hs : s ≠ "") :
    (formatDate "04/13/2023" = some "2023-04-13T00:00:00" ∧
     formatDate "04-13-2023" = some "2023-04-13T00:00:00" ∧
     formatDate "2023-04-13" = some "2023-04-13T00:00:00" ∧
     formatDate "4/13/2023 2:30 PM" = some "2023-04-13T14:30:00") ∧
    formatDate s ≠ none ∧
    (tryFormats s.data = none → formatDate s = some s) ∧
    parseGrantsDate "04132023" = some (2023, 4, 13) ∧
    (∀ t : String, t.length ≠ 8 → parseGrantsDate t = none) := by
  refine ⟨⟨rfl, rfl, rfl, rfl⟩, ?_, ?_, rfl, ?_⟩
  · rw [formatDate, if_neg hs]
    cases tryFormats s.data <;> simp
  · intro h
    rw [formatDate, if_neg hs, h]
  · intro t ht
    rw [parseGrantsDate]
    by_cases h1 : t = ""
    · rw [if_pos h1]
    · rw [if_neg h1, if_neg ht]

/-- C8 (witness): the amended theorem evaluated on the concrete unparseable
string `"hello"` and a length-1 input for the bulk parser. -/
theorem date_normalization_witness :
    formatDate "hello" = some "hello" ∧ parseGrantsDate "x" = none := by
  have h := date_normalization "hello" (by decide)
  exact ⟨h.2.2.1 (by decide), h.2.2.2.2 "x" (by decide)⟩

end GrantsETL
